import Mathlib

/-!
Shallow embedding of the SmartCV-App core (job-description extraction and
auto-fill from src/utils.py, the provider dispatcher from src/llm_clients.py,
model discovery from src/llm_clients.py and src/main.py, and the
configuration load/save merge from src/config.py), with theorems checking
the specification's claims against it.

Strings are modelled by Lean `String`; Python string truthiness (None and ""
are falsy) is modelled explicitly where the source relies on it.  The Python
string primitives the code uses (`split`, `strip`, `lower`, `startswith`,
substring search) are re-implemented by structural recursion over the
character list so that every definition evaluates inside the kernel;
`lower`/`strip` act character-wise, faithful on the ASCII texts the code
manipulates.
-/

namespace SmartCV

/-- Worker for `pySplit`: scan the characters, emitting a piece at each
non-overlapping occurrence of the separator; `skip` counts separator
characters still to be consumed after a match. -/
def splitOnGo (sep : List Char) : List Char → Nat → List Char → List (List Char)
  | [], _, acc => [acc.reverse]
  | c :: rest, skip, acc =>
    match skip with
    | n + 1 => splitOnGo sep rest n acc
    | 0 =>
      if sep ≠ [] ∧ sep.isPrefixOf (c :: rest) then
        acc.reverse :: splitOnGo sep rest (sep.length - 1) []
      else splitOnGo sep rest 0 (c :: acc)

/-- Python `s.split(sep)` for a non-empty separator. -/
def pySplit (s sep : String) : List String :=
  (splitOnGo sep.toList s.toList 0 []).map String.mk

/-- Worker for `pyTokens`: split on runs of whitespace, dropping empties. -/
def splitWsGo : List Char → List Char → List String
  | [], acc => if acc = [] then [] else [String.mk acc.reverse]
  | c :: t, acc =>
    if c.isWhitespace then
      if acc = [] then splitWsGo t [] else String.mk acc.reverse :: splitWsGo t []
    else splitWsGo t (c :: acc)

/-- Python `line.split()`: whitespace-separated tokens. -/
def pyTokens (s : String) : List String := splitWsGo s.toList []

/-- Drop leading whitespace characters. -/
def trimLeftLC : List Char → List Char
  | [] => []
  | c :: t => if c.isWhitespace then trimLeftLC t else c :: t

/-- Python `s.strip()`: drop whitespace at both ends. -/
def pyStrip (s : String) : String :=
  String.mk ((trimLeftLC ((trimLeftLC s.toList).reverse)).reverse)

/-- Python character-wise `str.lower()` (ASCII). -/
def pyLower (s : String) : String := String.mk (s.toList.map Char.toLower)

/-- Python `s.startswith(p)`. -/
def pyStartsWith (s p : String) : Bool := p.toList.isPrefixOf s.toList

/-- Join a list of strings with a separator (Python `sep.join(...)`). -/
def joinWith (sep : String) : List String → String
  | [] => ""
  | [x] => x
  | x :: y :: t => x ++ sep ++ joinWith sep (y :: t)

/-- Index of the first occurrence of `pat` in a character list (Python
`str.index` / the `in` operator), `none` when absent. -/
def findSubIdx (pat : List Char) : List Char → Option Nat
  | [] => if pat.isPrefixOf ([] : List Char) then some 0 else none
  | c :: t =>
    if pat.isPrefixOf (c :: t) then some 0
    else (findSubIdx pat t).map (· + 1)

/-- Python substring test `pat in s`. -/
def strContains (s pat : String) : Bool :=
  (findSubIdx pat.toList s.toList).isSome

/-- Python `line.split(":", 1)[1]`: everything after the first colon
(used only under a guard that a colon is present). -/
def afterFirstColon (line : String) : String :=
  joinWith ":" ((pySplit line ":").drop 1)

/-- Guard of the first branch of the company loop in
`extract_job_info_from_description` (src/utils.py line 12). -/
def companyLineMarker (line : String) : Bool :=
  strContains (pyLower line) "company:"

/-- Guard of the second branch of the company loop (src/utils.py line 15). -/
def companyLineAt (line : String) : Bool :=
  strContains (pyLower line) " at " && decide ((pyTokens line).length < 10)

/-- Company loop of `extract_job_info_from_description` (src/utils.py
lines 11-19): first match wins, and the " at " branch only fires when the
case-sensitive split actually produced a second part. -/
def findCompany : List String → String
  | [] => ""
  | line :: rest =>
    if companyLineMarker line then pyStrip (afterFirstColon line)
    else if companyLineAt line then
      let parts := pySplit line " at "
      if 1 < parts.length then pyStrip ((parts.get? 1).getD "")
      else findCompany rest
    else findCompany rest

def positionKeywords : List String := ["position:", "role:", "title:", "job title:"]

/-- Marker guard of the position loop (src/utils.py lines 22-24). -/
def positionLineMarker (line : String) : Bool :=
  positionKeywords.any (fun k => strContains (pyLower line) k)

/-- Short-line heuristic guard of the position loop (src/utils.py
lines 28-32). -/
def positionLineShort (line : String) : Bool :=
  decide ((pyTokens line).length ≤ 6) && decide (10 < line.toList.length) &&
    !(pyStartsWith line "http") && !(pyStartsWith line "www")

/-- Position loop of `extract_job_info_from_description` (src/utils.py
lines 21-35). -/
def findPosition : List String → String
  | [] => ""
  | line :: rest =>
    if positionLineMarker line then
      if strContains line ":" then pyStrip (afterFirstColon line) else pyStrip line
    else if positionLineShort line then pyStrip line
    else findPosition rest

def skill_keywords : List String :=
  ["required skills:", "skills:", "requirements:", "qualifications:",
   "technical skills:", "must have:"]

/-- First keyword of the list occurring in the lowered text, with its index
(src/utils.py lines 45-47). -/
def findKeywordIdx (textLower : String) : List String → Option Nat
  | [] => none
  | k :: rest =>
    match findSubIdx k.toList textLower.toList with
    | some i => some i
    | none => findKeywordIdx textLower rest

/-- Skills block built from the 500-character window at `idx`
(src/utils.py lines 48-52). -/
def skillsAt (jd : String) (idx : Nat) : String :=
  let sect := String.mk ((jd.toList.drop idx).take 500)
  let ls := (((pySplit sect "\n").drop 1).take 7).map pyStrip
  joinWith "\n" (ls.filter (fun l => l ≠ ""))

/-- Skills section of `extract_job_info_from_description` (src/utils.py
lines 36-53). -/
def findSkills (jd : String) : String :=
  match findKeywordIdx (pyLower jd) skill_keywords with
  | some idx => skillsAt jd idx
  | none => ""

/-- src/utils.py lines 1-54: returns `(job_role, company, position, skills)`;
all `none` when the input is falsy or its stripped length is below 30,
otherwise each field is the (possibly empty) string its loop produced. -/
def extract_job_info_from_description (jd : String) :
    Option String × Option String × Option String × Option String :=
  if jd = "" ∨ (pyStrip jd).toList.length < 30 then (none, none, none, none)
  else
    let lines := pySplit jd "\n"
    let company := findCompany (lines.take 10)
    let position := findPosition (lines.take 5)
    let job_role := position
    let skills := findSkills jd
    (some job_role, some company, some position, some skills)

/-- Python truthiness of an optional string: None and "" are falsy. -/
def pyTruthy : Option String → Bool
  | none => false
  | some s => s ≠ ""

/-- Python `extracted or current` on an optional string. -/
def pyOrS (o : Option String) (d : String) : String :=
  match o with
  | some s => if s = "" then d else s
  | none => d

/-- The literal separator inserted between existing skills and the
extracted block (src/utils.py line 81). -/
def skillsSeparator : String := "\n\n--- Extracted from Job Description ---\n"

/-- src/utils.py lines 57-86: merge extracted fields into the caller's
current values, field by field. -/
def auto_fill_from_job_description (job_desc r c p sk : String) :
    String × String × String × String :=
  if job_desc = "" then (r, c, p, sk)
  else
    let e := extract_job_info_from_description job_desc
    let er := e.1
    let ec := e.2.1
    let ep := e.2.2.1
    let es := e.2.2.2
    let nr := if r ≠ "" then r else pyOrS er r
    let nc := if c ≠ "" then c else pyOrS ec c
    let np := if p ≠ "" then p else pyOrS ep p
    let ns :=
      if pyTruthy es = true ∧ sk = "" then es.getD ""
      else if pyTruthy es = true ∧ sk ≠ "" then sk ++ skillsSeparator ++ es.getD ""
      else sk
    (nr, nc, np, ns)

/-- A line that makes the company loop stop with a value: either the
"company:" marker fires, or the " at " heuristic fires and the
case-sensitive split yields a second part. -/
def companyLineHit (line : String) : Bool :=
  companyLineMarker line ||
    (companyLineAt line && decide (1 < (pySplit line " at ").length))

/-- A line that makes the position loop stop with a value. -/
def positionLineHit (line : String) : Bool :=
  positionLineMarker line || positionLineShort line

theorem findCompany_no_hit : ∀ ls : List String,
    (∀ l ∈ ls, companyLineHit l = false) → findCompany ls = "" := by
  intro ls
  induction ls with
  | nil => intro _; rfl
  | cons line rest ih =>
    intro h
    have hl := h line (List.mem_cons_self _ _)
    have hr : ∀ l ∈ rest, companyLineHit l = false :=
      fun l hm => h l (List.mem_cons_of_mem _ hm)
    cases hmk : companyLineMarker line with
    | true => simp [companyLineHit, hmk] at hl
    | false =>
      cases hat : companyLineAt line with
      | false => simpa [findCompany, hmk, hat] using ih hr
      | true =>
        have hlen : ¬(1 < (pySplit line " at ").length) := by
          intro hgt
          simp [companyLineHit, hmk, hat, hgt] at hl
        simp [findCompany, hmk, hat, hlen, ih hr]

theorem findPosition_no_hit : ∀ ls : List String,
    (∀ l ∈ ls, positionLineHit l = false) → findPosition ls = "" := by
  intro ls
  induction ls with
  | nil => intro _; rfl
  | cons line rest ih =>
    intro h
    have hl := h line (List.mem_cons_self _ _)
    have hr : ∀ l ∈ rest, positionLineHit l = false :=
      fun l hm => h l (List.mem_cons_of_mem _ hm)
    cases hmk : positionLineMarker line with
    | true => simp [positionLineHit, hmk] at hl
    | false =>
      cases hsh : positionLineShort line with
      | true => simp [positionLineHit, hmk, hsh] at hl
      | false => simpa [findPosition, hmk, hsh] using ih hr

theorem findKeywordIdx_none (textLower : String) : ∀ ks : List String,
    (∀ k ∈ ks, strContains textLower k = false) →
    findKeywordIdx textLower ks = none := by
  intro ks
  induction ks with
  | nil => intro _; rfl
  | cons k rest ih =>
    intro h
    have hk := h k (List.mem_cons_self _ _)
    have hnone : findSubIdx k.data textLower.data = none := by
      unfold strContains String.toList at hk
      exact Option.not_isSome_iff_eq_none.mp (by simp [hk])
    simp [findKeywordIdx, hnone, ih fun l hm => h l (List.mem_cons_of_mem _ hm)]

theorem findSkills_no_keyword (jd : String)
    (h : ∀ k ∈ skill_keywords, strContains (pyLower jd) k = false) :
    findSkills jd = "" := by
  unfold findSkills
  rw [findKeywordIdx_none _ _ h]

/-- Claim C3: whenever the caller's current job role, company and position
are non-empty, the auto-fill merge returns them unchanged, whatever the
job description says. -/
theorem auto_fill_preserves_nonempty (jd r c p sk : String)
    (hr : r ≠ "") (hc : c ≠ "") (hp : p ≠ "") :
    (auto_fill_from_job_description jd r c p sk).1 = r ∧
    (auto_fill_from_job_description jd r c p sk).2.1 = c ∧
    (auto_fill_from_job_description jd r c p sk).2.2.1 = p := by
  unfold auto_fill_from_job_description
  by_cases h : jd = "" <;> simp [h, hr, hc, hp]

theorem auto_fill_preserves_nonempty_witness :
    (auto_fill_from_job_description
        "Position: Staff Engineer\nCompany: Acme Corp\nSkills:\n- Go\n- Distributed systems\n"
        "Baker" "Initech" "Lead Baker" "").1 = "Baker" ∧
    (auto_fill_from_job_description
        "Position: Staff Engineer\nCompany: Acme Corp\nSkills:\n- Go\n- Distributed systems\n"
        "Baker" "Initech" "Lead Baker" "").2.1 = "Initech" ∧
    (auto_fill_from_job_description
        "Position: Staff Engineer\nCompany: Acme Corp\nSkills:\n- Go\n- Distributed systems\n"
        "Baker" "Initech" "Lead Baker" "").2.2.1 = "Lead Baker" :=
  auto_fill_preserves_nonempty
    "Position: Staff Engineer\nCompany: Acme Corp\nSkills:\n- Go\n- Distributed systems\n"
    "Baker" "Initech" "Lead Baker" "" (by decide) (by decide) (by decide)

/-- Claim C4: on the sample posting, the extractor returns role and
position "Staff Engineer", company "Acme Corp", and a skills block
containing both "- Go" and "- Distributed systems". -/
theorem extract_staff_engineer_sample :
    extract_job_info_from_description
        "Position: Staff Engineer\nCompany: Acme Corp\nSkills:\n- Go\n- Distributed systems\n" =
      (some "Staff Engineer", some "Acme Corp", some "Staff Engineer",
       some "- Go\n- Distributed systems") ∧
    strContains "- Go\n- Distributed systems" "- Go" = true ∧
    strContains "- Go\n- Distributed systems" "- Distributed systems" = true := by
  decide

/-- Claim C5: an input whose stripped length is below 30 yields all-null
fields, and the auto-fill merge with such a job description returns the
caller's four current values unchanged. -/
theorem short_input_all_none_merge_identity (jd r c p sk : String)
    (h : (pyStrip jd).toList.length < 30) :
    extract_job_info_from_description jd = (none, none, none, none) ∧
    auto_fill_from_job_description jd r c p sk = (r, c, p, sk) := by
  have hex : extract_job_info_from_description jd = (none, none, none, none) := by
    unfold extract_job_info_from_description
    rw [if_pos (Or.inr h)]
  refine ⟨hex, ?_⟩
  unfold auto_fill_from_job_description
  by_cases hjd : jd = ""
  · rw [if_pos hjd]
  · rw [if_neg hjd]
    simp [hex, pyTruthy, pyOrS]

theorem short_input_all_none_merge_identity_witness :
    extract_job_info_from_description "short" = (none, none, none, none) ∧
    auto_fill_from_job_description "short" "Dev" "Acme" "Dev II" "Go" =
      ("Dev", "Acme", "Dev II", "Go") :=
  short_input_all_none_merge_identity "short" "Dev" "Acme" "Dev II" "Go" (by decide)

theorem auto_fill_skills_append (jd r c p sk es : String)
    (hes : (extract_job_info_from_description jd).2.2.2 = some es) (hesne : es ≠ "")
    (hsk : sk ≠ "") :
    (auto_fill_from_job_description jd r c p sk).2.2.2 =
      sk ++ skillsSeparator ++ es := by
  have hjd : jd ≠ "" := by
    intro h
    rw [h] at hes
    simp [extract_job_info_from_description] at hes
  unfold auto_fill_from_job_description
  rw [if_neg hjd]
  simp [hes, pyTruthy, hesne, hsk]

theorem append_skills_ne_empty (sk es : String) :
    sk ++ skillsSeparator ++ es ≠ "" := by
  intro h
  have hd := congrArg String.data h
  simp [String.data_append, skillsSeparator] at hd

theorem append_skills_ne_self (a es : String) :
    a ++ skillsSeparator ++ es ≠ a := by
  intro h
  have hd := congrArg (fun s => s.data.length) h
  simp [String.data_append, skillsSeparator] at hd

/-- Claim C6: with a non-empty extracted skills block and non-empty current
skills, the merge returns current skills, the separator, then the block;
feeding the updated skills back through the merge appends a second
separator block, so the merge is not idempotent on non-empty skills. -/
theorem merge_appends_separator_twice (jd r c p sk es : String)
    (hes : (extract_job_info_from_description jd).2.2.2 = some es) (hesne : es ≠ "")
    (hsk : sk ≠ "") :
    (auto_fill_from_job_description jd r c p sk).2.2.2 =
      sk ++ skillsSeparator ++ es ∧
    (auto_fill_from_job_description jd r c p (sk ++ skillsSeparator ++ es)).2.2.2 =
      (sk ++ skillsSeparator ++ es) ++ skillsSeparator ++ es ∧
    (sk ++ skillsSeparator ++ es) ++ skillsSeparator ++ es ≠
      sk ++ skillsSeparator ++ es :=
  ⟨auto_fill_skills_append jd r c p sk es hes hesne hsk,
   auto_fill_skills_append jd r c p _ es hes hesne (append_skills_ne_empty sk es),
   append_skills_ne_self _ es⟩

theorem merge_appends_separator_twice_witness :
    (auto_fill_from_job_description
        "Position: Staff Engineer\nCompany: Acme Corp\nSkills:\n- Go\n- Distributed systems\n"
        "" "" "" "Python").2.2.2 =
      "Python" ++ skillsSeparator ++ "- Go\n- Distributed systems" ∧
    (auto_fill_from_job_description
        "Position: Staff Engineer\nCompany: Acme Corp\nSkills:\n- Go\n- Distributed systems\n"
        "" "" "" ("Python" ++ skillsSeparator ++ "- Go\n- Distributed systems")).2.2.2 =
      ("Python" ++ skillsSeparator ++ "- Go\n- Distributed systems") ++
        skillsSeparator ++ "- Go\n- Distributed systems" ∧
    ("Python" ++ skillsSeparator ++ "- Go\n- Distributed systems") ++
        skillsSeparator ++ "- Go\n- Distributed systems" ≠
      "Python" ++ skillsSeparator ++ "- Go\n- Distributed systems" :=
  merge_appends_separator_twice
    "Position: Staff Engineer\nCompany: Acme Corp\nSkills:\n- Go\n- Distributed systems\n"
    "" "" "" "Python" "- Go\n- Distributed systems" (by decide) (by decide) (by decide)

/-- Claim C8 is refuted as stated: on a long enough input where no marker
or heuristic matches any field, the extractor returns the empty string
(wrapped in `some`), not null, for every field. -/
theorem extract_null_fields_counterexample :
    pySplit "aaaa bbbb cccc dddd eeee ffff gggg hhhh" "\n" =
      ["aaaa bbbb cccc dddd eeee ffff gggg hhhh"] ∧
    companyLineHit "aaaa bbbb cccc dddd eeee ffff gggg hhhh" = false ∧
    positionLineHit "aaaa bbbb cccc dddd eeee ffff gggg hhhh" = false ∧
    findKeywordIdx (pyLower "aaaa bbbb cccc dddd eeee ffff gggg hhhh")
        skill_keywords = none ∧
    extract_job_info_from_description "aaaa bbbb cccc dddd eeee ffff gggg hhhh" =
      (some "", some "", some "", some "") := by
  decide

/-- Claim C8 (amended): above the length threshold each field is computed
by its own independent scan of the input, and a field whose scan never
hits a marker or heuristic comes back as the empty string. -/
theorem extract_fields_independent_empty_on_no_match (jd : String)
    (h : ¬(jd = "" ∨ (pyStrip jd).toList.length < 30)) :
    extract_job_info_from_description jd =
      (some (findPosition ((pySplit jd "\n").take 5)),
       some (findCompany ((pySplit jd "\n").take 10)),
       some (findPosition ((pySplit jd "\n").take 5)),
       some (findSkills jd)) ∧
    ((∀ l ∈ (pySplit jd "\n").take 10, companyLineHit l = false) →
      findCompany ((pySplit jd "\n").take 10) = "") ∧
    ((∀ l ∈ (pySplit jd "\n").take 5, positionLineHit l = false) →
      findPosition ((pySplit jd "\n").take 5) = "") ∧
    ((∀ k ∈ skill_keywords, strContains (pyLower jd) k = false) →
      findSkills jd = "") := by
  refine ⟨?_, findCompany_no_hit _, findPosition_no_hit _, findSkills_no_keyword _⟩
  unfold extract_job_info_from_description
  rw [if_neg h]

theorem extract_fields_independent_witness :
    extract_job_info_from_description "aaaa bbbb cccc dddd eeee ffff gggg hhhh" =
      (some (findPosition ((pySplit "aaaa bbbb cccc dddd eeee ffff gggg hhhh" "\n").take 5)),
       some (findCompany ((pySplit "aaaa bbbb cccc dddd eeee ffff gggg hhhh" "\n").take 10)),
       some (findPosition ((pySplit "aaaa bbbb cccc dddd eeee ffff gggg hhhh" "\n").take 5)),
       some (findSkills "aaaa bbbb cccc dddd eeee ffff gggg hhhh")) ∧
    findCompany ((pySplit "aaaa bbbb cccc dddd eeee ffff gggg hhhh" "\n").take 10) = "" ∧
    findPosition ((pySplit "aaaa bbbb cccc dddd eeee ffff gggg hhhh" "\n").take 5) = "" ∧
    findSkills "aaaa bbbb cccc dddd eeee ffff gggg hhhh" = "" :=
  ⟨(extract_fields_independent_empty_on_no_match
      "aaaa bbbb cccc dddd eeee ffff gggg hhhh" (by decide)).1,
   (extract_fields_independent_empty_on_no_match
      "aaaa bbbb cccc dddd eeee ffff gggg hhhh" (by decide)).2.1 (by decide),
   (extract_fields_independent_empty_on_no_match
      "aaaa bbbb cccc dddd eeee ffff gggg hhhh" (by decide)).2.2.1 (by decide),
   (extract_fields_independent_empty_on_no_match
      "aaaa bbbb cccc dddd eeee ffff gggg hhhh" (by decide)).2.2.2 (by decide)⟩

/-! Provider dispatch (src/llm_clients.py).  The single network attempt a
call function may make is modelled by a `TransportResult` parameter holding
the outcome of that attempt; each call function returns the `(ok, text)`
pair of the source together with the number of network calls it made. -/

/-- Outcome of a (would-be) network round trip: the text extracted from a
successful response, or the message of the exception the source catches. -/
inductive TransportResult
  | ok (text : String)
  | error (msg : String)

/-- Provider identifier constants (src/config.py lines 33-35). -/
def CLAUDE_ANTHROPIC : String := "Claude (Anthropic)"

def GPT_OPENAI : String := "GPT (OpenAI)"

def OLLAMA_LOCAL : String := "Ollama (Local)"

/-- Values storable in the JSON configuration dictionary. -/
inductive ConfigVal
  | str (s : String)
  | nat (n : Nat)
  | rat (q : ℚ)
deriving DecidableEq

/-- A Python dict, as a key-ordered association list with unique keys. -/
abbrev ConfigDict := List (String × ConfigVal)

/-- Python `config.get(k)` collapsed to its string truthiness: a missing
key, a non-string value, and an empty string are all falsy for the
`config.get(k) or os.environ.get(...)` idiom, so they collapse to "". -/
def cfgGetStr (cfg : ConfigDict) (k : String) : String :=
  match List.lookup k cfg with
  | some (ConfigVal.str s) => s
  | _ => ""

/-- Python `a or b` on strings ("" is falsy). -/
def pyOrStr (a b : String) : String := if a = "" then b else a

/-- src/llm_clients.py lines 11-32: missing credential short-circuits with
a Failed result and zero network calls; otherwise one call is made and any
exception becomes a Failed result. -/
def call_claude (cfg : ConfigDict) (envAnthropicKey : String)
    (t : TransportResult) : (Bool × String) × Nat :=
  let api_key := pyOrStr (cfgGetStr cfg "anthropic_api_key") envAnthropicKey
  if api_key = "" then ((false, "Anthropic API key not configured"), 0)
  else
    match t with
    | .ok text => ((true, text), 1)
    | .error e => ((false, "Error calling Claude: " ++ e), 1)

/-- src/llm_clients.py lines 35-52: OpenAI twin of `call_claude`. -/
def call_openai (cfg : ConfigDict) (envOpenaiKey : String)
    (t : TransportResult) : (Bool × String) × Nat :=
  let api_key := pyOrStr (cfgGetStr cfg "openai_api_key") envOpenaiKey
  if api_key = "" then ((false, "OpenAI API key not configured"), 0)
  else
    match t with
    | .ok text => ((true, text), 1)
    | .error e => ((false, "Error calling OpenAI: " ++ e), 1)

/-- src/llm_clients.py lines 55-69: no credential needed; always makes its
one call and converts any exception to a Failed result. -/
def call_ollama (cfg : ConfigDict) (t : TransportResult) : (Bool × String) × Nat :=
  match t with
  | .ok text => ((true, text), 1)
  | .error e => ((false, "Error calling Ollama: " ++ e), 1)

/-- Render a call result the way the dispatcher returns it
(src/llm_clients.py lines 84-86): failures get the "❌ " marker. -/
def renderResult (r : (Bool × String) × Nat) : String × Nat :=
  ((if r.1.1 then r.1.2 else "❌ " ++ r.1.2), r.2)

/-- src/llm_clients.py lines 72-86: a falsy provider identifier defaults
to the local Ollama provider, the three known identifiers dispatch to
their call functions, and anything else returns the unknown-choice string
with no call made. -/
def generate_with_llm (provider : String) (cfg : ConfigDict)
    (envAnthropicKey envOpenaiKey : String)
    (tClaude tOpenai tOllama : TransportResult) : String × Nat :=
  let provider := pyOrStr provider OLLAMA_LOCAL
  if provider = CLAUDE_ANTHROPIC then
    renderResult (call_claude cfg envAnthropicKey tClaude)
  else if provider = GPT_OPENAI then
    renderResult (call_openai cfg envOpenaiKey tOpenai)
  else if provider = OLLAMA_LOCAL then
    renderResult (call_ollama cfg tOllama)
  else ("Error: Unknown model choice", 0)

/-- Claim C1: with the credential absent from both the config and the
environment, each hosted provider returns a Failed result naming the
provider and "API key not configured", and makes zero network calls. -/
theorem missing_api_key_fails_without_network (cfg : ConfigDict)
    (envA envO : String) (tc tO : TransportResult)
    (hA : cfgGetStr cfg "anthropic_api_key" = "") (hEnvA : envA = "")
    (hO : cfgGetStr cfg "openai_api_key" = "") (hEnvO : envO = "") :
    call_claude cfg envA tc = ((false, "Anthropic API key not configured"), 0) ∧
    call_openai cfg envO tO = ((false, "OpenAI API key not configured"), 0) ∧
    strContains "Anthropic API key not configured" "Anthropic" = true ∧
    strContains "Anthropic API key not configured" "API key not configured" = true ∧
    strContains "OpenAI API key not configured" "OpenAI" = true ∧
    strContains "OpenAI API key not configured" "API key not configured" = true := by
  refine ⟨?_, ?_, by decide, by decide, by decide, by decide⟩
  · unfold call_claude
    simp [pyOrStr, hA, hEnvA]
  · unfold call_openai
    simp [pyOrStr, hO, hEnvO]

theorem missing_api_key_fails_without_network_witness :
    call_claude [] "" (.ok "hi") = ((false, "Anthropic API key not configured"), 0) ∧
    call_openai [] "" (.ok "hi") = ((false, "OpenAI API key not configured"), 0) ∧
    strContains "Anthropic API key not configured" "Anthropic" = true ∧
    strContains "Anthropic API key not configured" "API key not configured" = true ∧
    strContains "OpenAI API key not configured" "OpenAI" = true ∧
    strContains "OpenAI API key not configured" "API key not configured" = true :=
  missing_api_key_fails_without_network [] "" "" (.ok "hi") (.ok "hi")
    (by decide) (by decide) (by decide) (by decide)

/-- Claim C2 is refuted as stated: an unknown non-empty identifier does
yield "Error: Unknown model choice" with zero calls, but that string does
not begin with the "❌" marker the dispatcher prefixes to provider-call
failures, and the empty identifier (also not one of the three known
values) is dispatched to Ollama instead of failing. -/
theorem unknown_choice_marker_counterexample :
    generate_with_llm "Gemini" [] "" "" (.error "e") (.error "e") (.error "e") =
      ("Error: Unknown model choice", 0) ∧
    pyStartsWith "Error: Unknown model choice" "❌" = false ∧
    generate_with_llm "Claude (Anthropic)" [] "" "" (.error "e") (.error "e") (.error "e") =
      ("❌ Anthropic API key not configured", 0) ∧
    pyStartsWith "❌ Anthropic API key not configured" "❌" = true ∧
    generate_with_llm "" [] "" "" (.error "e") (.error "e") (.ok "hello") =
      ("hello", 1) := by
  decide

/-- Claim C2 (amended): every non-empty provider identifier other than the
three known values yields "Error: Unknown model choice" with no call
attempted; unlike the dispatcher's provider-call failures, this string
carries no "❌" marker — it begins with "Error:" instead. -/
theorem unknown_choice_no_call (provider : String) (cfg : ConfigDict)
    (envA envO : String) (tc tO tL : TransportResult)
    (hne : provider ≠ "") (h1 : provider ≠ CLAUDE_ANTHROPIC)
    (h2 : provider ≠ GPT_OPENAI) (h3 : provider ≠ OLLAMA_LOCAL) :
    generate_with_llm provider cfg envA envO tc tO tL =
      ("Error: Unknown model choice", 0) ∧
    pyStartsWith "Error: Unknown model choice" "Error:" = true ∧
    pyStartsWith "Error: Unknown model choice" "❌" = false := by
  refine ⟨?_, by decide, by decide⟩
  unfold generate_with_llm
  simp [pyOrStr, hne, h1, h2, h3]

theorem unknown_choice_no_call_witness :
    generate_with_llm "Mistral" [] "" "" (.ok "a") (.ok "b") (.ok "c") =
      ("Error: Unknown model choice", 0) ∧
    pyStartsWith "Error: Unknown model choice" "Error:" = true ∧
    pyStartsWith "Error: Unknown model choice" "❌" = false :=
  unknown_choice_no_call "Mistral" [] "" "" (.ok "a") (.ok "b") (.ok "c")
    (by decide) (by decide) (by decide) (by decide)

/-- Claim C10: a falsy provider identifier is not an unknown-choice
failure; it defaults to the local Ollama provider and the request is
dispatched there (exactly one Ollama transport call is made). -/
theorem empty_provider_defaults_to_ollama (cfg : ConfigDict)
    (envA envO : String) (tc tO tL : TransportResult) :
    generate_with_llm "" cfg envA envO tc tO tL =
      renderResult (call_ollama cfg tL) ∧
    (generate_with_llm "" cfg envA envO tc tO tL).2 = 1 ∧
    generate_with_llm "" cfg envA envO tc tO tL ≠
      ("Error: Unknown model choice", 0) := by
  have h : generate_with_llm "" cfg envA envO tc tO tL =
      renderResult (call_ollama cfg tL) := by
    unfold generate_with_llm
    simp [pyOrStr, OLLAMA_LOCAL, CLAUDE_ANTHROPIC, GPT_OPENAI]
  have hn : (renderResult (call_ollama cfg tL)).2 = 1 := by
    cases tL <;> rfl
  refine ⟨h, by rw [h]; exact hn, ?_⟩
  rw [h]
  intro heq
  have := congrArg Prod.snd heq
  rw [hn] at this
  exact Nat.one_ne_zero this

/-! Model discovery (src/llm_clients.py lines 89-99 and src/main.py
lines 362-377).  The GET round trip is modelled by its outcome: a
connection error, any other exception, or a parsed JSON body whose
optional "models" array is given by the list of its entries' names. -/

/-- Outcome of the discovery GET. -/
inductive DiscoveryResult
  | connectionError
  | otherError (msg : String)
  | ok (modelsField : Option (List String))

/-- src/llm_clients.py lines 89-99: returns the name list as-is, with a
"✅ Found N models" status — an empty array yields an empty list. -/
def get_ollama_models (resp : DiscoveryResult) : List String × String :=
  match resp with
  | .ok mf =>
    let models := mf.getD []
    (models, "✅ Found " ++ toString models.length ++ " models")
  | .connectionError => (["Connection Error"], "❌ Cannot connect to Ollama")
  | .otherError e => (["Error"], "❌ Error fetching models: " ++ e)

/-- src/main.py lines 362-377: like `get_ollama_models` but an empty name
list is replaced by the "No models found" placeholder plus a warning. -/
def get_ollama_models_main (resp : DiscoveryResult) : List String × String :=
  match resp with
  | .ok mf =>
    let model_names := mf.getD []
    if model_names = [] then
      (["No models found"],
       "⚠️ No Ollama models installed. Run 'ollama pull <model>' to install.")
    else
      (model_names, "✅ Found " ++ toString model_names.length ++ " Ollama models")
  | .connectionError =>
    (["Connection Error"],
     "❌ Cannot connect to Ollama. Make sure Ollama is running (ollama serve)")
  | .otherError e => (["Error"], "❌ Error fetching models: " ++ e)

/-- Claim C7 is refuted as stated for the ModelDiscovery implementation in
src/llm_clients.py (the one app.py imports): an empty models array comes
back as the empty list with a success-marked status, with no "No models
found" placeholder. -/
theorem empty_models_placeholder_counterexample :
    get_ollama_models (.ok (some [])) = ([], "✅ Found 0 models") ∧
    (get_ollama_models (.ok (some []))).1 = [] ∧
    ¬ "No models found" ∈ (get_ollama_models (.ok (some []))).1 ∧
    pyStartsWith (get_ollama_models (.ok (some []))).2 "✅" = true := by
  decide

/-- Claim C7 (amended): the src/main.py implementation behaves as claimed —
a successful response whose models array is empty yields exactly the
one-element "No models found" placeholder list and a "⚠️" warning status. -/
theorem empty_models_placeholder_main (mf : Option (List String))
    (h : mf.getD [] = []) :
    get_ollama_models_main (.ok mf) =
      (["No models found"],
       "⚠️ No Ollama models installed. Run 'ollama pull <model>' to install.") ∧
    (get_ollama_models_main (.ok mf)).1 ≠ [] ∧
    pyStartsWith (get_ollama_models_main (.ok mf)).2 "⚠️" = true := by
  have he : get_ollama_models_main (.ok mf) =
      (["No models found"],
       "⚠️ No Ollama models installed. Run 'ollama pull <model>' to install.") := by
    unfold get_ollama_models_main
    simp [h]
  refine ⟨he, by rw [he]; decide, by rw [he]; decide⟩

theorem empty_models_placeholder_main_witness :
    get_ollama_models_main (.ok (some [])) =
      (["No models found"],
       "⚠️ No Ollama models installed. Run 'ollama pull <model>' to install.") ∧
    (get_ollama_models_main (.ok (some []))).1 ≠ [] ∧
    pyStartsWith (get_ollama_models_main (.ok (some []))).2 "⚠️" = true :=
  empty_models_placeholder_main (some []) (by decide)

/-! Configuration persistence (src/config.py).  `load_config` is a
function of the possible states of the persisted file (absent, corrupted,
or parsed into a dict) and of the two environment credentials feeding the
defaults; `save_config` is modelled by the dict it writes to disk. -/

def CLAUDE_MODELS : List String :=
  ["claude-sonnet-4-20250514", "claude-opus-4-20250514",
   "claude-sonnet-3-5-20241022", "claude-sonnet-3-5-20240620",
   "claude-3-5-sonnet-20240620", "claude-3-opus-20240229",
   "claude-3-sonnet-20240229", "claude-3-haiku-20240307"]

def OPENAI_MODELS : List String :=
  ["gpt-4-turbo-preview", "gpt-4-turbo", "gpt-4", "gpt-4-32k", "gpt-3.5-turbo",
   "gpt-3.5-turbo-16k", "o1-preview", "o1-mini"]

def OLLAMA_MODELS : List String := ["llama3.2:latest"]

/-- src/config.py lines 37-47; the two API-key defaults come from the
environment (missing environment variables are modelled as ""). -/
def DEFAULT_CONFIG (envAnthropicKey envOpenaiKey : String) : ConfigDict :=
  [("default_model", ConfigVal.str ((OLLAMA_MODELS.get? 0).getD "")),
   ("claude_model", ConfigVal.str ((CLAUDE_MODELS.get? 0).getD "")),
   ("openai_model", ConfigVal.str ((OPENAI_MODELS.get? 0).getD "")),
   ("ollama_model", ConfigVal.str ((OLLAMA_MODELS.get? 0).getD "")),
   ("ollama_url", ConfigVal.str "http://localhost:11434"),
   ("anthropic_api_key", ConfigVal.str envAnthropicKey),
   ("openai_api_key", ConfigVal.str envOpenaiKey),
   ("max_tokens", ConfigVal.nat 4000),
   ("temperature", ConfigVal.rat (7 / 10))]

/-- Python dict merge `{**a, **b}`: the keys of `a` in order, with values
overridden by `b` where present, followed by the keys of `b` absent
from `a`, in order. -/
def dictMerge (a b : ConfigDict) : ConfigDict :=
  a.map (fun q => (q.1, (List.lookup q.1 b).getD q.2)) ++
    b.filter (fun q => (List.lookup q.1 a).isNone)

/-- States the persisted config file can be in when a load runs. -/
inductive ConfigFile
  | absent
  | corrupted
  | parsed (data : ConfigDict)

/-- src/config.py lines 120-133: a parsed file is merged over the
defaults; a missing or corrupted file yields the defaults. -/
def load_config (envAnthropicKey envOpenaiKey : String) : ConfigFile → ConfigDict
  | ConfigFile.parsed data =>
      dictMerge (DEFAULT_CONFIG envAnthropicKey envOpenaiKey) data
  | ConfigFile.corrupted => DEFAULT_CONFIG envAnthropicKey envOpenaiKey
  | ConfigFile.absent => DEFAULT_CONFIG envAnthropicKey envOpenaiKey

/-- src/config.py lines 136-141: the dict written to disk by a save. -/
def save_config (envAnthropicKey envOpenaiKey : String) (cfg : ConfigDict) :
    ConfigDict :=
  dictMerge (DEFAULT_CONFIG envAnthropicKey envOpenaiKey) cfg

theorem lookup_append_config (k : String) (l₁ l₂ : ConfigDict) :
    List.lookup k (l₁ ++ l₂) =
      ((List.lookup k l₁).orElse fun _ => List.lookup k l₂) := by
  induction l₁ with
  | nil => simp [List.lookup, Option.orElse]
  | cons q t ih =>
    obtain ⟨k', v⟩ := q
    cases hp : (k == k') with
    | true => simp [List.lookup, hp, Option.orElse]
    | false => simp [List.lookup, hp, Option.orElse, ih]

theorem lookup_map_override (k : String) (a b : ConfigDict) :
    List.lookup k (a.map fun q => (q.1, (List.lookup q.1 b).getD q.2)) =
      (List.lookup k a).map fun v => (List.lookup k b).getD v := by
  induction a with
  | nil => simp [List.lookup]
  | cons q t ih =>
    obtain ⟨k', v⟩ := q
    cases hp : (k == k') with
    | true =>
      have hk : k = k' := eq_of_beq hp
      subst hk
      simp [List.lookup, hp]
    | false => simp [List.lookup, hp, ih]

theorem lookup_filter_isNone (k : String) (a b : ConfigDict)
    (ha : List.lookup k a = none) :
    List.lookup k (b.filter fun q => (List.lookup q.1 a).isNone) =
      List.lookup k b := by
  induction b with
  | nil => simp
  | cons e t ih =>
    obtain ⟨k', v⟩ := e
    cases hp : (k == k') with
    | true =>
      have hk : k = k' := eq_of_beq hp
      subst hk
      simp [List.filter, List.lookup, hp, ha]
    | false =>
      cases hqe : (List.lookup k' a).isNone with
      | true => simp [List.filter, hqe, List.lookup, hp, ih]
      | false => simp [List.filter, hqe, List.lookup, hp, ih]

/-- Lookup through a Python dict merge: the override wins, the default
backs it up. -/
theorem lookup_dictMerge (a b : ConfigDict) (k : String) :
    List.lookup k (dictMerge a b) =
      ((List.lookup k b).orElse fun _ => List.lookup k a) := by
  unfold dictMerge
  rw [lookup_append_config, lookup_map_override]
  cases ha : List.lookup k a with
  | some v =>
    cases hb : List.lookup k b with
    | some w => simp [Option.orElse]
    | none => simp [Option.orElse]
  | none =>
    rw [lookup_filter_isNone k a b ha]
    cases hb : List.lookup k b with
    | some w => simp [Option.orElse]
    | none => simp [Option.orElse]

/-- Claim C9: whatever the persisted file held, a load returns a config
with every default key present, missing keys taking their default value,
and a save writes a config with the same property. -/
theorem config_load_save_have_all_default_keys (envA envO : String)
    (file : ConfigFile) (k : String) (v : ConfigVal)
    (hk : List.lookup k (DEFAULT_CONFIG envA envO) = some v) :
    (List.lookup k (load_config envA envO file)).isSome = true ∧
    (∀ data, file = ConfigFile.parsed data → List.lookup k data = none →
      List.lookup k (load_config envA envO file) = some v) ∧
    (∀ cfg : ConfigDict,
      (List.lookup k (save_config envA envO cfg)).isSome = true ∧
      (List.lookup k cfg = none →
        List.lookup k (save_config envA envO cfg) = some v)) := by
  have hsave : ∀ cfg : ConfigDict,
      (List.lookup k (save_config envA envO cfg)).isSome = true ∧
      (List.lookup k cfg = none →
        List.lookup k (save_config envA envO cfg) = some v) := by
    intro cfg
    unfold save_config
    rw [lookup_dictMerge]
    constructor
    · cases hc : List.lookup k cfg with
      | some w => simp [Option.orElse]
      | none => simp [Option.orElse, hk]
    · intro hc
      simp [hc, Option.orElse, hk]
  refine ⟨?_, ?_, hsave⟩
  · cases file with
    | absent => simp [load_config, hk]
    | corrupted => simp [load_config, hk]
    | parsed data =>
      have := (hsave data).1
      simpa [save_config, load_config] using this
  · intro data hfd hdata
    cases file with
    | absent => exact ConfigFile.noConfusion hfd
    | corrupted => exact ConfigFile.noConfusion hfd
    | parsed d =>
      have hd : d = data := by injection hfd
      subst hd
      have := (hsave d).2 hdata
      simpa [save_config, load_config] using this

theorem config_load_save_have_all_default_keys_witness :
    (List.lookup "temperature"
        (load_config "EA" ""
          (ConfigFile.parsed [("max_tokens", ConfigVal.nat 123)]))).isSome = true ∧
    List.lookup "temperature"
        (load_config "EA" ""
          (ConfigFile.parsed [("max_tokens", ConfigVal.nat 123)])) =
      some (ConfigVal.rat (7 / 10)) ∧
    (List.lookup "temperature"
        (save_config "EA" "" [("max_tokens", ConfigVal.nat 123)])).isSome = true ∧
    List.lookup "temperature"
        (save_config "EA" "" [("max_tokens", ConfigVal.nat 123)]) =
      some (ConfigVal.rat (7 / 10)) :=
  have h := config_load_save_have_all_default_keys "EA" ""
    (ConfigFile.parsed [("max_tokens", ConfigVal.nat 123)]) "temperature"
    (ConfigVal.rat (7 / 10)) (by rfl)
  ⟨h.1, h.2.1 [("max_tokens", ConfigVal.nat 123)] rfl (by rfl),
   (h.2.2 [("max_tokens", ConfigVal.nat 123)]).1,
   (h.2.2 [("max_tokens", ConfigVal.nat 123)]).2 (by rfl)⟩

end SmartCV
